import Mathlib

/-!
Verification of the Book Recommender pipeline (src/streamlit_app-3.py).

The program merges two CSV-backed tables on the isbn10 key, normalizes
genre labels with a fixed lookup table, drops records of infrequent or
missing genres, computes a Bayesian-weighted average rating, and answers
author/genre queries with a ranked, truncated list of records.

Shallow embedding conventions:
- a pandas DataFrame becomes a `List` of record structures, in row order;
- floating point columns become `ℚ` (the claims under test are exact
  arithmetic identities, explicitly sanctioned by the spec "exactly, over
  exact arithmetic");
- a column that can hold NaN becomes `Option`; `pd.read_csv` turns a field
  whose text is in the pandas default NA list into NaN, which the code
  then turns into the string "nan" via astype(str) for the categories
  column (modelled by `Option.getD _ "nan"`);
- `pd.merge(goodreads, categories, how="inner", on=["isbn10"])` becomes a
  flat map over the left table of the matching right rows (pandas inner
  join output follows left-key order; NaN keys match each other);
- `Series.str.contains(pat, case=False, na=False)` performs a Python
  regular-expression search (regex=True is the pandas default) with
  IGNORECASE, with NaN entries mapped to False.  The regex engine is
  modelled on the fragment consisting of literal characters and the
  wildcard character (a dot); every pattern a theorem below touches stays
  inside that fragment.
-/

/-- One row of the goodreads table, restricted to the columns the merged
frame keeps (the code deletes bookID and isbn13; num_pages carries the
value of the oddly named "  num_pages" column).  Numeric columns are
already parsed, as read_csv parses them; astype is the identity on them. -/
structure GRow where
  isbn10 : Option String
  title : String
  authors : Option String
  average_rating : ℚ
  ratings_count : Int
  num_pages : Int
deriving DecidableEq, Repr

/-- One row of the categories table after the code deletes its isbn13,
authors, title, average_rating, num_pages, published_year and
ratings_count columns.  `categories = none` models a NaN produced by
read_csv from a field in the default NA list. -/
structure CRow where
  isbn10 : Option String
  categories : Option String
  thumbnail : Option String
  description : Option String
deriving DecidableEq, Repr

/-- A row of the merged `all_books` frame, including the derived columns
the pipeline adds later (initialized to 0 before their assignment). -/
structure Book where
  isbn10 : Option String
  title : String
  authors : Option String
  average_rating : ℚ
  ratings_count : Int
  num_pages : Int
  categories : String
  thumbnail : Option String
  description : Option String
  genre_frequency : Int
  bayes_average : ℚ
  rounded_rating : Int
deriving DecidableEq, Repr

/-- Combine a goodreads row with a matching categories row into one merged
row.  The categories column is passed through astype(str), which renders a
NaN as the string "nan". -/
def mkBook (g : GRow) (c : CRow) : Book :=
  { isbn10 := g.isbn10
    title := g.title
    authors := g.authors
    average_rating := g.average_rating
    ratings_count := g.ratings_count
    num_pages := g.num_pages
    categories := c.categories.getD "nan"
    thumbnail := c.thumbnail
    description := c.description
    genre_frequency := 0
    bayes_average := 0
    rounded_rating := 0 }

/-- pd.merge(goodreads, categories, how="inner", on=["isbn10"]): for each
left row, in left order, emit one merged row per right row with an equal
key (pandas joins NaN keys to NaN keys, hence equality on `Option`). -/
def mergeBooks (g : List GRow) (c : List CRow) : List Book :=
  g.flatMap fun gr => (c.filter fun cr => cr.isbn10 == gr.isbn10).map (mkBook gr)

/-- The similar_genre lookup table, verbatim from the source. -/
def similar_genre : List (String × String) :=
  [("BIOGRAPHY & AUTOBIOGRAPHY", "Biography & Autobiography"),
   ("Political science", "Political Science"),
   ("Political leadership", "Political Science"),
   ("Political fiction", "Political Science"),
   ("Literary Criticism & Collections", "Literary Criticism"),
   ("LITERARY CRITICISM", "Literary Criticism"),
   ("JUVENILE FICTION", "Juvenile Fiction"),
   ("Humorous stories, American", "Humor"),
   ("Humorous stories", "Humor"),
   ("Humorous stories, English", "Humor"),
   ("Humorous fiction", "Humor"),
   ("Comedy", "Humor"),
   ("Detective and mystery stories, American", "Detective and mystery stories"),
   ("Detective and mystery stories, English", "Detective and mystery stories")]

/-- Series.replace(similar_genre): a value that is a key of the mapping is
replaced by its image, every other value passes through unchanged. -/
def normGenre (s : String) : String :=
  (similar_genre.lookup s).getD s

/-- Applies the genre replacement to the categories column. -/
def normalizeBooks (bs : List Book) : List Book :=
  bs.map fun b => { b with categories := normGenre b.categories }

example : normGenre "Comedy" = "Humor" := by decide
example : normGenre "Fiction" = "Fiction" := by decide

/-- The frequency dictionary of section 4: how many rows of the frame
carry a given categories value.  The code builds it by iterating over the
whole (pre-filter) categories column. -/
def genreFreq (bs : List Book) (cat : String) : Nat :=
  bs.countP fun b => b.categories == cat

/-- map(frequency): stores each record its genre frequency, counted over
the whole normalized frame (the count runs before any filtering). -/
def addFrequency (bs : List Book) : List Book :=
  bs.map fun b => { b with genre_frequency := (genreFreq bs b.categories : Int) }

/-- The two filter lines of section 4: keep genre_frequency >= 5, then
drop the rows whose categories value is the string "nan". -/
def filterFrequent (bs : List Book) : List Book :=
  (bs.filter fun b => decide (5 ≤ b.genre_frequency)).filter fun b =>
    b.categories != "nan"

/-- Insert a value into an ascending sorted list of rationals. -/
def insertAsc (x : ℚ) : List ℚ → List ℚ
  | [] => [x]
  | y :: ys => if x ≤ y then x :: y :: ys else y :: insertAsc x ys

/-- Ascending insertion sort, used to realize the order statistics that
Series.quantile computes internally. -/
def sortAsc (xs : List ℚ) : List ℚ :=
  xs.foldr insertAsc []

/-- Series.quantile(q=0.25) with the default linear interpolation: with
the values sorted ascending as x_0 .. x_(n-1), let h = (n-1)/4; the result
is x_i + (h - i) * (x_(i+1) - x_i) where i = floor h. -/
def quantile25 (xs : List ℚ) : ℚ :=
  let s := sortAsc xs
  let n := s.length
  if n = 0 then 0 else
    let h : ℚ := ((n : ℚ) - 1) / 4
    let i : Nat := ⌊h⌋.toNat
    let lo := s.getD i 0
    let hi := s.getD (i + 1) lo
    lo + (h - (i : ℚ)) * (hi - lo)

/-- Series.mean: the arithmetic mean of a column. -/
def colMean (xs : List ℚ) : ℚ :=
  xs.sum / (xs.length : ℚ)

/-- C = all_books.ratings_count.quantile(q=0.25), computed over the frame
it is applied to (in the program: the post-frequency-filter frame). -/
def C_of (bs : List Book) : ℚ :=
  quantile25 (bs.map fun b => (b.ratings_count : ℚ))

/-- m = all_books.average_rating.mean() over the same frame. -/
def m_of (bs : List Book) : ℚ :=
  colMean (bs.map fun b => b.average_rating)

/-- The bayes_average column assignment: for every row,
(average_rating * ratings_count + C * m) / (ratings_count + C), with one C
and one m computed over the whole frame. -/
def addBayes (bs : List Book) : List Book :=
  bs.map fun b =>
    { b with bayes_average :=
        (b.average_rating * (b.ratings_count : ℚ) + C_of bs * m_of bs) /
          ((b.ratings_count : ℚ) + C_of bs) }

/-- Series.round() elementwise: numpy rounding to the nearest integer,
ties going to the even neighbor (half-to-even). -/
def roundHalfEven (x : ℚ) : Int :=
  if x - (⌊x⌋ : ℚ) < 1 / 2 then ⌊x⌋
  else if 1 / 2 < x - (⌊x⌋ : ℚ) then ⌊x⌋ + 1
  else if ⌊x⌋ % 2 = 0 then ⌊x⌋ else ⌊x⌋ + 1

/-- The rounded_rating column assignment. -/
def addRounded (bs : List Book) : List Book :=
  bs.map fun b => { b with rounded_rating := roundHalfEven b.average_rating }

/-- The frame right after the frequency filter (end of section 4), which
is the frame C and m are computed over. -/
def filteredBooks (g : List GRow) (c : List CRow) : List Book :=
  filterFrequent (addFrequency (normalizeBooks (mergeBooks g c)))

/-- The final all_books frame: merge, normalize genres, frequency-filter,
add bayes_average (section 5), add rounded_rating (section 6). -/
def all_books (g : List GRow) (c : List CRow) : List Book :=
  addRounded (addBayes (filteredBooks g c))

example : quantile25 [1, 3, 2, 4] = 7 / 4 := by
  norm_num [quantile25, sortAsc, insertAsc]
example : quantile25 [0, 8, 8, 8, 8] = 8 := by
  norm_num [quantile25, sortAsc, insertAsc]
example : roundHalfEven (7 / 2) = 4 := by norm_num [roundHalfEven]
example : roundHalfEven (5 / 2) = 2 := by norm_num [roundHalfEven]
example : roundHalfEven (23 / 10) = 2 := by norm_num [roundHalfEven]

/-!  The query engine (sections 6 and 7 of the source). -/

/-- The three values offered by the page-number select box; the page
filter in narrowed_general branches on exactly these three strings. -/
inductive PageBucket where
  | lt300
  | from300to499
  | over500
deriving DecidableEq, Repr

/-- The if/elif page narrowing of narrowed_general. -/
def pageMatch (pages : PageBucket) (n : Int) : Bool :=
  match pages with
  | .lt300 => decide (n < 300)
  | .from300to499 => decide (300 ≤ n) && decide (n ≤ 499)
  | .over500 => decide (500 ≤ n)

/-- Insert a record into a list sorted by bayes_average descending,
before the first record with a strictly smaller bayes_average. -/
def insertByBayes (b : Book) : List Book → List Book
  | [] => [b]
  | x :: xs =>
      if x.bayes_average < b.bayes_average then b :: x :: xs
      else x :: insertByBayes b xs

/-- sort_values(["bayes_average"], ascending=[False]): some permutation of
the frame that is sorted by bayes_average descending.  The library leaves
the order of rows with equal bayes_average implementation defined (the
default sort kind, quicksort, is documented as not stable); this insertion
sort realizes one admissible descending order, and no theorem below about
the query results depends on which permutation of equal rows is produced. -/
def sortByBayesDesc (bs : List Book) : List Book :=
  bs.foldr insertByBayes []

/-- Regular-expression tokens of the modelled fragment: a literal
character or the any-character wildcard. -/
inductive RTok where
  | dot
  | lit (c : Char)
deriving DecidableEq, Repr

/-- Compile a pattern string on the modelled fragment: the wildcard
character becomes the wildcard token, every other character a literal.
Faithful to Python re for patterns whose characters are all
non-metacharacters or the dot wildcard. -/
def compileFrag (pat : String) : List RTok :=
  pat.data.map fun ch => if ch = '.' then RTok.dot else RTok.lit ch

/-- Whether one token matches one character under IGNORECASE; the
wildcard matches every character except a newline. -/
def tokMatches (t : RTok) (c : Char) : Bool :=
  match t with
  | RTok.dot => decide (c ≠ '\n')
  | RTok.lit l => l.toLower == c.toLower

/-- Whether the token list matches a prefix of the character list. -/
def matchHere : List RTok → List Char → Bool
  | [], _ => true
  | _ :: _, [] => false
  | t :: ts, c :: cs => tokMatches t c && matchHere ts cs

/-- re.search: whether the token list matches at some start position. -/
def searchFrom : List RTok → List Char → Bool
  | ts, [] => matchHere ts []
  | ts, c :: cs => matchHere ts (c :: cs) || searchFrom ts cs

/-- re.search(pat, s, re.IGNORECASE) on the modelled fragment. -/
def reSearchCI (pat s : String) : Bool :=
  searchFrom (compileFrag pat) s.data

/-- Series.str.contains(pat, case=False, na=False) on one cell: a missing
authors value yields False (na=False); a present one is regex-searched
case-insensitively. -/
def strContainsCI (a : Option String) (pat : String) : Bool :=
  match a with
  | none => false
  | some s => reSearchCI pat s

/-- narrowed_author = all_books[all_books.authors.str.contains(author,
case=False, na=False)]. -/
def narrowed_author (bs : List Book) (author : String) : List Book :=
  bs.filter fun b => strContainsCI b.authors author

/-- narrowed_genre = all_books[all_books.categories == genre]. -/
def narrowed_genre (bs : List Book) (genre : String) : List Book :=
  bs.filter fun b => b.categories == genre

/-- narrowed_general: filter by page bucket, sort by bayes_average
descending, truncate with head(number_rec); if the user input is the
empty string nothing is displayed.  The enclosing-scope variables pages
and number_rec of the source are explicit parameters here. -/
def narrowed_general (narrowed_set : List Book) (user_input : String)
    (pages : PageBucket) (number_rec : Nat) : List Book :=
  let narrowed_pages := narrowed_set.filter fun b => pageMatch pages b.num_pages
  let displayed_df := (sortByBayesDesc narrowed_pages).take number_rec
  if user_input = "" then [] else displayed_df

/-- An author-mode query end to end: build the pipeline, narrow by
author, then run narrowed_general with the author as the user input. -/
def authorQuery (g : List GRow) (c : List CRow) (author : String)
    (pages : PageBucket) (number_rec : Nat) : List Book :=
  narrowed_general (narrowed_author (all_books g c) author) author pages number_rec

/-- A genre-mode query end to end. -/
def genreQuery (g : List GRow) (c : List CRow) (genre : String)
    (pages : PageBucket) (number_rec : Nat) : List Book :=
  narrowed_general (narrowed_genre (all_books g c) genre) genre pages number_rec

/-- Case-insensitive substring containment, stated over character lists:
the lowered pattern occurs as a contiguous run inside the lowered text.
This is the matching relation the specification describes for author
queries; it is compared against the regex search the code performs. -/
def subOccursAux (p : List Char) : List Char → Bool
  | [] => p.isEmpty
  | c :: cs => p.isPrefixOf (c :: cs) || subOccursAux p cs

/-- Case-insensitive substring containment between strings. -/
def substrCI (pat s : String) : Bool :=
  subOccursAux (pat.data.map Char.toLower) (s.data.map Char.toLower)

example : substrCI "AND" "Brandon Sanderson" = true := by decide
example : substrCI "." "Ann" = false := by decide
example : reSearchCI "." "Ann" = true := by decide
example : reSearchCI "AND" "Brandon Sanderson" = true := by decide
example : reSearchCI "x" "Ann" = false := by decide

/-!  The read_csv missing-value convention, needed to relate the merged
categories column to the raw files. -/

/-- The default NA markers of pd.read_csv: a field whose text is one of
these becomes NaN, also when quoted.  In particular an empty field can
never reach the frame as the empty string. -/
def pandasDefaultNA : List String :=
  ["", "#N/A", "#N/A N/A", "#NA", "-1.#IND", "-1.#QNAN", "-NaN", "-nan",
   "1.#IND", "1.#QNAN", "<NA>", "N/A", "NA", "NULL", "NaN", "None",
   "n/a", "nan", "null"]

/-- How read_csv parses one text field: NA markers become NaN (none). -/
def parseCsvField (s : String) : Option String :=
  if pandasDefaultNA.contains s then none else some s

/-- A string cell is read_csv-clean when it is either NaN or a string
that is not an NA marker, i.e. it lies in the range of `parseCsvField`. -/
def cellClean (o : Option String) : Bool :=
  match o with
  | none => true
  | some s => !(pandasDefaultNA.contains s)

/-- The categories table is read_csv-clean: every categories cell could
have been produced by parsing a CSV field. -/
def csvClean (c : List CRow) : Prop :=
  ∀ r ∈ c, cellClean r.categories = true

example : ∀ s, cellClean (parseCsvField s) = true := by
  intro s
  unfold parseCsvField cellClean
  by_cases h : pandasDefaultNA.contains s = true
  · rw [if_pos h]
  · rw [if_neg h]
    rw [Bool.not_eq_true] at h
    show (!pandasDefaultNA.contains s) = true
    rw [h]
    rfl

/-!  Concrete example tables used by the witnesses.  Five books of one
genre (so the genre survives the frequency filter), integer-friendly
numbers: ratings counts 8,8,8,0,8 give C = 8 (the 25th percentile) and
ratings 4,3,4,5,4 give m = 4. -/

def gEx : List GRow :=
  [{ isbn10 := some "0001", title := "T1", authors := some "Ann Patchett",
     average_rating := 4, ratings_count := 8, num_pages := 100 },
   { isbn10 := some "0002", title := "T2", authors := some "Bob Marks",
     average_rating := 3, ratings_count := 8, num_pages := 350 },
   { isbn10 := some "0003", title := "T3", authors := none,
     average_rating := 4, ratings_count := 8, num_pages := 600 },
   { isbn10 := some "0004", title := "T4", authors := some "Carol Diaz",
     average_rating := 5, ratings_count := 0, num_pages := 250 },
   { isbn10 := some "0005", title := "T5", authors := some "Dave Eggers",
     average_rating := 4, ratings_count := 8, num_pages := 200 }]

def cEx : List CRow :=
  [{ isbn10 := some "0001", categories := some "Comedy",
     thumbnail := none, description := none },
   { isbn10 := some "0002", categories := some "Comedy",
     thumbnail := none, description := none },
   { isbn10 := some "0003", categories := some "Comedy",
     thumbnail := none, description := none },
   { isbn10 := some "0004", categories := some "Comedy",
     thumbnail := none, description := none },
   { isbn10 := some "0005", categories := some "Comedy",
     thumbnail := none, description := none }]

/-- The expected final frame for the example tables: category Comedy is
normalized to Humor, all five survive the filter, C = 8, m = 4. -/
def bEx (isbn title : String) (authors : Option String) (rating : ℚ)
    (count pages : Int) (bayes : ℚ) (rounded : Int) : Book :=
  { isbn10 := some isbn, title := title, authors := authors,
    average_rating := rating, ratings_count := count, num_pages := pages,
    categories := "Humor", thumbnail := none, description := none,
    genre_frequency := 5, bayes_average := bayes, rounded_rating := rounded }

def b1Ex : Book := bEx "0001" "T1" (some "Ann Patchett") 4 8 100 4 4
def b2Ex : Book := bEx "0002" "T2" (some "Bob Marks") 3 8 350 (7 / 2) 3
def b3Ex : Book := bEx "0003" "T3" none 4 8 600 4 4
def b4Ex : Book := bEx "0004" "T4" (some "Carol Diaz") 5 0 250 4 5
def b5Ex : Book := bEx "0005" "T5" (some "Dave Eggers") 4 8 200 4 4

def booksEx : List Book := [b1Ex, b2Ex, b3Ex, b4Ex, b5Ex]

/-- The example pipeline fully evaluated. -/
lemma all_books_gEx : all_books gEx cEx = booksEx := by
  simp [all_books, filteredBooks, mergeBooks, mkBook, normalizeBooks,
    normGenre, similar_genre, addFrequency, genreFreq, filterFrequent,
    addBayes, addRounded, C_of, m_of, quantile25, colMean, sortAsc,
    insertAsc, roundHalfEven, gEx, cEx, booksEx, b1Ex, b2Ex, b3Ex, b4Ex,
    b5Ex, bEx, List.flatMap,
    List.filter, List.map, List.countP, List.countP.go, List.lookup]
  norm_num [insertAsc, roundHalfEven]
  simp
  norm_num

/-- The pre-score books of the example (the filtered frame). -/
def booksEx0 : List Book :=
  [bEx "0001" "T1" (some "Ann Patchett") 4 8 100 0 0,
   bEx "0002" "T2" (some "Bob Marks") 3 8 350 0 0,
   bEx "0003" "T3" none 4 8 600 0 0,
   bEx "0004" "T4" (some "Carol Diaz") 5 0 250 0 0,
   bEx "0005" "T5" (some "Dave Eggers") 4 8 200 0 0]

/-- The example filtered frame fully evaluated. -/
lemma filteredBooks_gEx : filteredBooks gEx cEx = booksEx0 := by
  simp [filteredBooks, mergeBooks, mkBook, normalizeBooks,
    normGenre, similar_genre, addFrequency, genreFreq, filterFrequent,
    gEx, cEx, booksEx0, bEx, List.flatMap,
    List.filter, List.map, List.countP, List.countP.go, List.lookup]

/-- The confidence constant on the example: the 25th percentile of the
counts 8, 8, 8, 0, 8 is 8. -/
lemma C_of_gEx : C_of (filteredBooks gEx cEx) = 8 := by
  rw [filteredBooks_gEx]
  simp only [C_of, booksEx0, bEx, List.map]
  norm_num [quantile25, sortAsc, insertAsc]

/-- The mean rating on the example: (4 + 3 + 4 + 5 + 4) / 5 = 4. -/
lemma m_of_gEx : m_of (filteredBooks gEx cEx) = 4 := by
  rw [filteredBooks_gEx]
  simp only [m_of, booksEx0, bEx, List.map]
  norm_num [colMean]

/-!  Helper lemmas. -/

/-- A lookup-with-default either returns its argument or one of the
values of the table. -/
lemma lookup_getD_self_or_mem (l : List (String × String)) (s : String) :
    (l.lookup s).getD s = s ∨ (l.lookup s).getD s ∈ l.map Prod.snd := by
  induction l with
  | nil => exact Or.inl rfl
  | cons p t ih =>
      obtain ⟨k, v⟩ := p
      by_cases h : s == k
      · right
        simp [List.lookup, h]
      · rcases ih with h1 | h1
        · left
          simpa [List.lookup, h] using h1
        · right
          simp only [List.lookup, h]
          simp only [List.map_cons, List.mem_cons]
          right
          simpa using h1

/-- normGenre fixes a string or maps it to a value of the table. -/
lemma normGenre_self_or_value (s : String) :
    normGenre s = s ∨ normGenre s ∈ similar_genre.map Prod.snd :=
  lookup_getD_self_or_mem similar_genre s

/-- Every value of the similar_genre table is a fixed point of
normGenre: no canonical label is itself a key of the table. -/
lemma normGenre_fixes_values :
    ∀ v ∈ similar_genre.map Prod.snd, normGenre v = v := by decide

/-- The values of the similar_genre table are nonempty strings. -/
lemma values_ne_empty : ∀ v ∈ similar_genre.map Prod.snd, v ≠ "" := by decide

/-- normGenre never turns a nonempty label into the empty string. -/
lemma normGenre_ne_empty (s : String) (hs : s ≠ "") : normGenre s ≠ "" := by
  rcases normGenre_self_or_value s with h | h
  · rw [h]
    exact hs
  · exact values_ne_empty _ h

/-- Membership in the filtered frame: the two filters hold, and the
categories value descends from a categories-table cell through astype
and the genre replacement. -/
lemma mem_filteredBooks (g : List GRow) (c : List CRow) (b : Book)
    (h : b ∈ filteredBooks g c) :
    5 ≤ b.genre_frequency ∧ b.categories ≠ "nan" ∧
      ∃ cr ∈ c, b.categories = normGenre (cr.categories.getD "nan") := by
  unfold filteredBooks filterFrequent at h
  rw [List.mem_filter] at h
  obtain ⟨h, hnan⟩ := h
  rw [List.mem_filter] at h
  obtain ⟨h, hfreq⟩ := h
  refine ⟨by simpa using hfreq, by simpa using hnan, ?_⟩
  unfold addFrequency at h
  rw [List.mem_map] at h
  obtain ⟨b1, hb1, rfl⟩ := h
  unfold normalizeBooks at hb1
  rw [List.mem_map] at hb1
  obtain ⟨b2, hb2, rfl⟩ := hb1
  unfold mergeBooks at hb2
  rw [List.mem_flatMap] at hb2
  obtain ⟨gr, _, hb2⟩ := hb2
  rw [List.mem_map] at hb2
  obtain ⟨cr, hcr, rfl⟩ := hb2
  rw [List.mem_filter] at hcr
  exact ⟨cr, hcr.1, rfl⟩

/-- Every record of the final frame arises from a record of the filtered
frame by setting bayes_average via the formula (with the C and m of the
filtered frame) and rounded_rating via roundHalfEven, all other columns
unchanged. -/
lemma all_books_shape (g : List GRow) (c : List CRow) (b : Book)
    (hb : b ∈ all_books g c) :
    ∃ b0 ∈ filteredBooks g c,
      b.isbn10 = b0.isbn10 ∧ b.authors = b0.authors ∧
      b.average_rating = b0.average_rating ∧
      b.ratings_count = b0.ratings_count ∧
      b.num_pages = b0.num_pages ∧ b.categories = b0.categories ∧
      b.genre_frequency = b0.genre_frequency ∧
      b.bayes_average =
        (b.average_rating * (b.ratings_count : ℚ) +
            C_of (filteredBooks g c) * m_of (filteredBooks g c)) /
          ((b.ratings_count : ℚ) + C_of (filteredBooks g c)) ∧
      b.rounded_rating = roundHalfEven b.average_rating := by
  unfold all_books addRounded addBayes at hb
  rw [List.mem_map] at hb
  obtain ⟨b1, hb1, rfl⟩ := hb
  rw [List.mem_map] at hb1
  obtain ⟨b0, hb0, rfl⟩ := hb1
  exact ⟨b0, hb0, rfl, rfl, rfl, rfl, rfl, rfl, rfl, rfl, rfl⟩

/-- insertByBayes inserts exactly its argument. -/
lemma mem_insertByBayes (b x : Book) (l : List Book) :
    x ∈ insertByBayes b l ↔ x = b ∨ x ∈ l := by
  induction l with
  | nil => simp [insertByBayes]
  | cons y ys ih =>
      unfold insertByBayes
      by_cases h : y.bayes_average < b.bayes_average
      · rw [if_pos h]
        simp [List.mem_cons]
      · rw [if_neg h]
        rw [List.mem_cons, List.mem_cons, ih]
        tauto

/-- The descending sort permutes the frame: membership is unchanged. -/
lemma mem_sortByBayesDesc (x : Book) (l : List Book) :
    x ∈ sortByBayesDesc l ↔ x ∈ l := by
  unfold sortByBayesDesc
  induction l with
  | nil => simp
  | cons y ys ih =>
      simp only [List.foldr_cons, mem_insertByBayes, List.mem_cons, ih]

/-- Every record narrowed_general returns comes from its input frame. -/
lemma mem_of_mem_narrowed_general (s : List Book) (u : String)
    (p : PageBucket) (n : Nat) (b : Book)
    (hb : b ∈ narrowed_general s u p n) : b ∈ s := by
  unfold narrowed_general at hb
  by_cases h : u = ""
  · rw [if_pos h] at hb
    simp at hb
  · rw [if_neg h] at hb
    have h1 := List.mem_of_mem_take hb
    rw [mem_sortByBayesDesc] at h1
    exact (List.mem_filter.1 h1).1

/-- Every record an author query returns is a record of all_books. -/
lemma authorQuery_subset (g : List GRow) (c : List CRow) (a : String)
    (p : PageBucket) (n : Nat) (b : Book)
    (hb : b ∈ authorQuery g c a p n) : b ∈ all_books g c := by
  have h := mem_of_mem_narrowed_general _ _ _ _ _ hb
  exact (List.mem_filter.1 h).1

/-- Every record a genre query returns is a record of all_books. -/
lemma genreQuery_subset (g : List GRow) (c : List CRow) (v : String)
    (p : PageBucket) (n : Nat) (b : Book)
    (hb : b ∈ genreQuery g c v p n) : b ∈ all_books g c := by
  have h := mem_of_mem_narrowed_general _ _ _ _ _ hb
  exact (List.mem_filter.1 h).1

/-- narrowed_general returns at most the requested number of records. -/
lemma narrowed_general_length (s : List Book) (u : String)
    (p : PageBucket) (n : Nat) : (narrowed_general s u p n).length ≤ n := by
  unfold narrowed_general
  by_cases h : u = ""
  · rw [if_pos h]
    exact Nat.zero_le n
  · rw [if_neg h]
    rw [List.length_take]
    exact Nat.min_le_left n _

/-- narrowed_general with a requested count of zero returns nothing. -/
lemma narrowed_general_zero (s : List Book) (u : String)
    (p : PageBucket) : narrowed_general s u p 0 = [] := by
  unfold narrowed_general
  by_cases h : u = ""
  · rw [if_pos h]
  · rw [if_neg h]
    exact List.take_zero _

/-!  The claims. -/

/-- Claim C1: for every record in the post-frequency-filter dataset,
bayes_average equals
(average_rating * ratings_count + C * m) / (ratings_count + C), where C
is the 25th percentile of ratings_count over that filtered dataset and m
is the arithmetic mean of average_rating over that same dataset, with the
same C and m used for every record. -/
theorem C1_bayes_formula (g : List GRow) (c : List CRow) (b : Book)
    (hb : b ∈ all_books g c) :
    b.bayes_average =
      (b.average_rating * (b.ratings_count : ℚ) +
          C_of (filteredBooks g c) * m_of (filteredBooks g c)) /
        ((b.ratings_count : ℚ) + C_of (filteredBooks g c)) := by
  obtain ⟨b0, _, _, _, _, _, _, _, _, hbayes, _⟩ := all_books_shape g c b hb
  exact hbayes

/-- Witness for C1 at the example tables: the record of isbn 0001 has
bayes_average (4 * 8 + 8 * 4) / (8 + 8) = 4. -/
theorem C1_bayes_formula_witness :
    b1Ex ∈ all_books gEx cEx ∧
      b1Ex.bayes_average =
        (b1Ex.average_rating * (b1Ex.ratings_count : ℚ) +
            C_of (filteredBooks gEx cEx) * m_of (filteredBooks gEx cEx)) /
          ((b1Ex.ratings_count : ℚ) + C_of (filteredBooks gEx cEx)) :=
  have hmem : b1Ex ∈ all_books gEx cEx := by
    rw [all_books_gEx]
    simp [booksEx]
  ⟨hmem, C1_bayes_formula gEx cEx b1Ex hmem⟩

/-- Claim C6: every query returns at most the requested number of
records, and a requested count of 0 yields the empty sequence. -/
theorem C6_limit_truncation (g : List GRow) (c : List CRow)
    (a v : String) (p : PageBucket) (n : Nat) :
    (authorQuery g c a p n).length ≤ n ∧ authorQuery g c a p 0 = [] ∧
      (genreQuery g c v p n).length ≤ n ∧ genreQuery g c v p 0 = [] :=
  ⟨narrowed_general_length _ _ _ _, narrowed_general_zero _ _ _,
   narrowed_general_length _ _ _ _, narrowed_general_zero _ _ _⟩

/-- Claim C7: the genre normalizer is idempotent; a label that is not a
key of the table passes through unchanged, and every canonical label (a
value of the table) maps to itself. -/
theorem C7_normalizer_idempotent (s : String) :
    normGenre (normGenre s) = normGenre s ∧
      (similar_genre.lookup s = none → normGenre s = s) ∧
      (∀ p ∈ similar_genre, normGenre p.2 = p.2) := by
  refine ⟨?_, ?_, ?_⟩
  · rcases normGenre_self_or_value s with h | h
    · rw [h]
      exact h
    · exact normGenre_fixes_values _ h
  · intro h
    unfold normGenre
    rw [h]
    rfl
  · intro p hp
    exact normGenre_fixes_values _ (List.mem_map_of_mem _ hp)

/-- Witness for C7: the unmapped label Fiction passes through and is a
fixed point; the canonical label Humor maps to itself. -/
theorem C7_normalizer_idempotent_witness :
    normGenre (normGenre "Fiction") = normGenre "Fiction" ∧
      normGenre "Fiction" = "Fiction" ∧ normGenre "Humor" = "Humor" :=
  ⟨(C7_normalizer_idempotent "Fiction").1,
   (C7_normalizer_idempotent "Fiction").2.1 (by decide),
   (C7_normalizer_idempotent "Fiction").2.2 ("Comedy", "Humor") (by decide)⟩

/-- Claim C10: in author mode, a record with a missing authors field is
never in the candidate set, for every search string, page bucket and
result count (na=False in str.contains maps missing cells to False). -/
theorem C10_missing_authors_never_match (g : List GRow) (c : List CRow)
    (q : String) (p : PageBucket) (n : Nat) (b : Book)
    (hnone : b.authors = none) :
    b ∉ narrowed_author (all_books g c) q ∧ b ∉ authorQuery g c q p n := by
  have hcand : b ∉ narrowed_author (all_books g c) q := by
    intro hc
    have h := (List.mem_filter.1 hc).2
    rw [hnone] at h
    simp [strContainsCI] at h
  refine ⟨hcand, fun hc => hcand ?_⟩
  exact mem_of_mem_narrowed_general _ _ _ _ _ hc

/-- Witness for C10: the example record with isbn 0003 has no authors
value and is excluded from an author query for the letter a. -/
theorem C10_missing_authors_never_match_witness :
    b3Ex.authors = none ∧
      b3Ex ∉ narrowed_author (all_books gEx cEx) "a" ∧
      b3Ex ∉ authorQuery gEx cEx "a" PageBucket.lt300 10 :=
  ⟨rfl, C10_missing_authors_never_match gEx cEx "a" PageBucket.lt300 10 b3Ex rfl⟩

/-- Claim C2: when the categories table is read_csv-clean, every record
that survives the frequency filter has genre_frequency at least 5 and a
category that is neither empty nor the missing sentinel; the invariant
extends to every record reachable by a later query, since query results
are subsets of the final frame. -/
theorem C2_frequency_filter_invariant (g : List GRow) (c : List CRow)
    (hclean : csvClean c) :
    (∀ b ∈ all_books g c,
        5 ≤ b.genre_frequency ∧ b.categories ≠ "" ∧ b.categories ≠ "nan") ∧
      (∀ a p n b, b ∈ authorQuery g c a p n → b ∈ all_books g c) ∧
      (∀ v p n b, b ∈ genreQuery g c v p n → b ∈ all_books g c) := by
  refine ⟨?_, fun a p n b hb => authorQuery_subset g c a p n b hb,
    fun v p n b hb => genreQuery_subset g c v p n b hb⟩
  intro b hb
  obtain ⟨b0, hb0, _, _, _, _, _, hcats, hfreq, _, _⟩ :=
    all_books_shape g c b hb
  obtain ⟨hf5, hnan, cr, hcr, hcat⟩ := mem_filteredBooks g c b0 hb0
  rw [hcats, hfreq]
  refine ⟨hf5, ?_, hnan⟩
  rw [hcat]
  rw [hcat] at hnan
  cases hc : cr.categories with
  | none =>
      rw [hc] at hnan
      exact absurd
        (by decide : normGenre ((none : Option String).getD "nan") = "nan")
        hnan
  | some s =>
      have hcell := hclean cr hcr
      rw [hc] at hcell
      have hs : s ≠ "" := by
        intro he
        rw [he] at hcell
        exact absurd hcell (by decide)
      exact normGenre_ne_empty s hs

/-- Witness for C2: the example categories table is read_csv-clean and
the invariant holds at the record of isbn 0001. -/
theorem C2_frequency_filter_invariant_witness :
    csvClean cEx ∧
      (5 ≤ b1Ex.genre_frequency ∧ b1Ex.categories ≠ "" ∧
        b1Ex.categories ≠ "nan") :=
  have hclean : csvClean cEx := by
    show ∀ r ∈ cEx, cellClean r.categories = true
    decide
  have hmem : b1Ex ∈ all_books gEx cEx := by
    rw [all_books_gEx]
    simp [booksEx]
  ⟨hclean, (C2_frequency_filter_invariant gEx cEx hclean).1 b1Ex hmem⟩

/-- Claim C8: a record of the filtered dataset with ratings_count 0 has
bayes_average exactly m (the mean rating of the filtered dataset) over
exact arithmetic, provided C is positive. -/
theorem C8_zero_count_degrades_to_mean (g : List GRow) (c : List CRow)
    (b : Book) (hb : b ∈ all_books g c) (hzero : b.ratings_count = 0)
    (hC : 0 < C_of (filteredBooks g c)) :
    b.bayes_average = m_of (filteredBooks g c) := by
  obtain ⟨b0, _, _, _, _, _, _, _, _, hbayes, _⟩ := all_books_shape g c b hb
  rw [hbayes, hzero]
  have hCne : C_of (filteredBooks g c) ≠ 0 := ne_of_gt hC
  push_cast
  rw [mul_zero, zero_add, zero_add]
  exact mul_div_cancel_left₀ _ hCne

/-- Witness for C8: the example record of isbn 0004 has ratings_count 0,
the example C is 8 > 0, and its bayes_average equals the mean 4. -/
theorem C8_zero_count_degrades_to_mean_witness :
    b4Ex ∈ all_books gEx cEx ∧ b4Ex.ratings_count = 0 ∧
      0 < C_of (filteredBooks gEx cEx) ∧
      b4Ex.bayes_average = m_of (filteredBooks gEx cEx) :=
  have hmem : b4Ex ∈ all_books gEx cEx := by
    rw [all_books_gEx]
    simp [booksEx]
  have hC : 0 < C_of (filteredBooks gEx cEx) := by
    rw [C_of_gEx]
    norm_num
  ⟨hmem, rfl, hC, C8_zero_count_degrades_to_mean gEx cEx b4Ex hmem rfl hC⟩

/-!  Claim C4: the merge.  pandas inner join with duplicated keys emits
one row per matching pair, so a key duplicated on the left appears more
than once in the merged frame. -/

/-- Counting merged rows produced by one left row: all of them carry the
left key, one per matching right row. -/
lemma countP_map_mkBook (gr : GRow) (l : List CRow) (k : Option String) :
    ((l.map (mkBook gr)).countP fun x => x.isbn10 == k) =
      if gr.isbn10 == k then l.length else 0 := by
  induction l with
  | nil => cases h : gr.isbn10 == k <;> simp [h]
  | cons cr t ih =>
      simp only [List.map_cons, List.countP_cons]
      rw [ih]
      cases h : gr.isbn10 == k <;>
        simp [h, show (mkBook gr cr).isbn10 = gr.isbn10 from rfl]

/-- Join multiplicity: a key appears in the merged frame exactly
(occurrences on the left) * (occurrences on the right) times. -/
lemma mergeBooks_countP_key (g : List GRow) (c : List CRow)
    (k : Option String) :
    ((mergeBooks g c).countP fun x => x.isbn10 == k) =
      (g.countP fun r => r.isbn10 == k) * (c.countP fun r => r.isbn10 == k) := by
  induction g with
  | nil => simp [mergeBooks]
  | cons gr t ih =>
      have hcons : mergeBooks (gr :: t) c =
          ((c.filter fun cr => cr.isbn10 == gr.isbn10).map (mkBook gr)) ++
            mergeBooks t c := by
        simp [mergeBooks]
      rw [hcons, List.countP_append, countP_map_mkBook, ih, List.countP_cons]
      cases h : gr.isbn10 == k
      · simp
      · have hk : gr.isbn10 = k := eq_of_beq h
        have hlen : (c.filter fun cr => cr.isbn10 == gr.isbn10).length =
            c.countP fun r => r.isbn10 == k := by
          rw [hk]
          exact (List.countP_eq_length_filter _ _).symm
        simp only [hlen, if_true]
        ring

/-- Provenance: every merged row carries a key occurring in both
sources. -/
lemma mergeBooks_key_in_both (g : List GRow) (c : List CRow) (b : Book)
    (hb : b ∈ mergeBooks g c) :
    (∃ r ∈ g, r.isbn10 = b.isbn10) ∧ ∃ r ∈ c, r.isbn10 = b.isbn10 := by
  unfold mergeBooks at hb
  rw [List.mem_flatMap] at hb
  obtain ⟨gr, hgr, hb⟩ := hb
  rw [List.mem_map] at hb
  obtain ⟨cr, hcr, rfl⟩ := hb
  rw [List.mem_filter] at hcr
  have hkey : cr.isbn10 = gr.isbn10 := eq_of_beq hcr.2
  exact ⟨⟨gr, hgr, rfl⟩, ⟨cr, hcr.1, hkey⟩⟩

/-- A goodreads table with the key A twice, and a categories table with
the key A once: the inner join emits two rows with key A. -/
def gDupRow1 : GRow :=
  { isbn10 := some "A", title := "X1", authors := some "W1",
    average_rating := 4, ratings_count := 1, num_pages := 100 }

def gDupRow2 : GRow :=
  { isbn10 := some "A", title := "X2", authors := some "W2",
    average_rating := 3, ratings_count := 2, num_pages := 200 }

def cDupRow : CRow :=
  { isbn10 := some "A", categories := some "G",
    thumbnail := none, description := none }

def gDup : List GRow := [gDupRow1, gDupRow2]

def cDup : List CRow := [cDupRow]

/-- Counterexample to C4 as stated: on the duplicate-key tables some
merged row's isbn10 does not appear exactly once in the merged table. -/
theorem C4_unique_key_counterexample :
    ¬ (∀ b ∈ mergeBooks gDup cDup,
        ((mergeBooks gDup cDup).countP fun x => x.isbn10 == b.isbn10) = 1) := by
  decide

/-- Claim C4, amended: the merged table is the inner join on isbn10 in
the multiset sense: every merged row's key occurs in both sources (rows
present in only one source are dropped), and each key value appears as
many times as the product of its occurrence counts in the two sources,
hence exactly once when it is unique in both. -/
theorem C4_inner_join (g : List GRow) (c : List CRow) (k : Option String) :
    (∀ b ∈ mergeBooks g c,
        (∃ r ∈ g, r.isbn10 = b.isbn10) ∧ ∃ r ∈ c, r.isbn10 = b.isbn10) ∧
      ((mergeBooks g c).countP fun x => x.isbn10 == k) =
        (g.countP fun r => r.isbn10 == k) *
          (c.countP fun r => r.isbn10 == k) :=
  ⟨fun b hb => mergeBooks_key_in_both g c b hb, mergeBooks_countP_key g c k⟩

/-- Witness for the amended C4 on the duplicate-key tables: the first
merged row's key is in both sources, and the key A appears 2 * 1 = 2
times in the merged table. -/
theorem C4_inner_join_witness :
    (mkBook gDupRow1 cDupRow ∈ mergeBooks gDup cDup) ∧
      ((∃ r ∈ gDup, r.isbn10 = (mkBook gDupRow1 cDupRow).isbn10) ∧
        ∃ r ∈ cDup, r.isbn10 = (mkBook gDupRow1 cDupRow).isbn10) ∧
      ((mergeBooks gDup cDup).countP fun x => x.isbn10 == some "A") =
        (gDup.countP fun r => r.isbn10 == some "A") *
          (cDup.countP fun r => r.isbn10 == some "A") :=
  have hmem : mkBook gDupRow1 cDupRow ∈ mergeBooks gDup cDup := by
    decide
  ⟨hmem, (C4_inner_join gDup cDup (some "A")).1 _ hmem,
   (C4_inner_join gDup cDup (some "A")).2⟩

/-!  Claim C5: author matching.  str.contains defaults to regex=True, so
the author input is a regular expression, not a literal substring; the
two coincide exactly for metacharacter-free inputs. -/

/-- The metacharacters of Python regular expressions. -/
def reMetachars : List Char :=
  ['.', '^', '$', '*', '+', '?', '\x7b', '\x7d', '[', ']', '\\', '|',
   '(', ')']

/-- On a dot-free pattern the fragment compiler produces only literal
tokens. -/
lemma mapTok_no_dot (l : List Char) (h : '.' ∉ l) :
    (l.map fun ch => if ch = '.' then RTok.dot else RTok.lit ch) =
      l.map RTok.lit := by
  induction l with
  | nil => rfl
  | cons c t ih =>
      rw [List.mem_cons, not_or] at h
      rw [List.map_cons, List.map_cons,
        if_neg (fun hc => h.1 hc.symm), ih h.2]

/-- A literal token list matches at the start exactly when the lowered
pattern is a prefix of the lowered text. -/
lemma matchHere_lit (p : List Char) : ∀ s : List Char,
    matchHere (p.map RTok.lit) s =
      (p.map Char.toLower).isPrefixOf (s.map Char.toLower) := by
  induction p with
  | nil => intro s; cases s <;> rfl
  | cons c t ih =>
      intro s
      cases s with
      | nil => rfl
      | cons d u =>
          show (tokMatches (RTok.lit c) d && matchHere (t.map RTok.lit) u) = _
          rw [ih u]
          rfl

/-- A literal token search succeeds exactly when the lowered pattern
occurs inside the lowered text. -/
lemma searchFrom_lit (p : List Char) : ∀ s : List Char,
    searchFrom (p.map RTok.lit) s =
      subOccursAux (p.map Char.toLower) (s.map Char.toLower) := by
  intro s
  induction s with
  | nil => cases p <;> rfl
  | cons d u ih =>
      show (matchHere (p.map RTok.lit) (d :: u) ||
          searchFrom (p.map RTok.lit) u) = _
      rw [matchHere_lit, ih]
      rfl

/-- On dot-free patterns the modelled regex search is exactly the
case-insensitive substring test. -/
lemma reSearchCI_eq_substrCI (pat s : String) (h : '.' ∉ pat.data) :
    reSearchCI pat s = substrCI pat s := by
  unfold reSearchCI substrCI compileFrag
  rw [mapTok_no_dot pat.data h, searchFrom_lit]

/-- Counterexample to C5 as stated: with the query ".", the record with
authors "Ann Patchett" is in the candidate set (the regex wildcard
matches) although "." is not a case-insensitive substring of the authors
field. -/
theorem C5_substring_counterexample :
    ¬ (∀ b ∈ all_books gEx cEx,
        b ∈ narrowed_author (all_books gEx cEx) "." ↔
          ∃ s, b.authors = some s ∧ substrCI "." s = true) := by
  intro hall
  have hmem : b1Ex ∈ all_books gEx cEx := by
    rw [all_books_gEx]
    simp [booksEx]
  have hin : b1Ex ∈ narrowed_author (all_books gEx cEx) "." :=
    List.mem_filter.2 ⟨hmem, by decide⟩
  obtain ⟨s, hs, hsub⟩ := (hall b1Ex hmem).1 hin
  have hs2 : some "Ann Patchett" = some s := hs
  injection hs2 with hs3
  rw [← hs3] at hsub
  exact absurd hsub (by decide)

/-- Claim C5, amended: in author mode a record is a candidate iff the
query matches the authors field as a case-insensitive regular
expression; for query strings free of regex metacharacters this is
exactly case-insensitive substring containment; and an empty author
input yields an empty result for every page bucket and limit. -/
theorem C5_author_matching (g : List GRow) (c : List CRow) (q : String)
    (hq : ∀ ch ∈ q.data, ch ∉ reMetachars) :
    (∀ b ∈ all_books g c,
        b ∈ narrowed_author (all_books g c) q ↔
          ∃ s, b.authors = some s ∧ substrCI q s = true) ∧
      ∀ p n, authorQuery g c "" p n = [] := by
  have hdot : '.' ∉ q.data := fun hc => hq '.' hc (by decide)
  constructor
  · intro b hb
    constructor
    · intro hmem
      have h2 := (List.mem_filter.1 hmem).2
      cases ha : b.authors with
      | none =>
          rw [ha] at h2
          simp [strContainsCI] at h2
      | some s =>
          rw [ha] at h2
          refine ⟨s, rfl, ?_⟩
          rw [← reSearchCI_eq_substrCI q s hdot]
          exact h2
    · rintro ⟨s, ha, hsub⟩
      refine List.mem_filter.2 ⟨hb, ?_⟩
      show strContainsCI b.authors q = true
      rw [ha]
      show reSearchCI q s = true
      rw [reSearchCI_eq_substrCI q s hdot]
      exact hsub
  · intro p n
    unfold authorQuery narrowed_general
    rw [if_pos rfl]

/-- Witness for the amended C5: the query "ann" is metacharacter-free,
the record with authors "Ann Patchett" satisfies the iff, and the empty
query returns nothing. -/
theorem C5_author_matching_witness :
    (∀ ch ∈ "ann".data, ch ∉ reMetachars) ∧
      (b1Ex ∈ narrowed_author (all_books gEx cEx) "ann" ↔
        ∃ s, b1Ex.authors = some s ∧ substrCI "ann" s = true) ∧
      authorQuery gEx cEx "" PageBucket.lt300 10 = [] :=
  have hq : ∀ ch ∈ "ann".data, ch ∉ reMetachars := by decide
  have hmem : b1Ex ∈ all_books gEx cEx := by
    rw [all_books_gEx]
    simp [booksEx]
  ⟨hq, (C5_author_matching gEx cEx "ann" hq).1 b1Ex hmem,
   (C5_author_matching gEx cEx "ann" hq).2 PageBucket.lt300 10⟩

/-!  Claim C9: rounded_rating.  Series.round rounds half to even; nothing
in the program bounds average_rating, so the range 0..5 only holds when
the input ratings lie in 0..5. -/

/-- roundHalfEven is a nearest-integer rounding: the distance to the
result never exceeds one half. -/
lemma roundHalfEven_nearest (x : ℚ) :
    |x - (roundHalfEven x : ℚ)| ≤ 1 / 2 := by
  have hfl : (⌊x⌋ : ℚ) ≤ x := Int.floor_le x
  have hlt : x < (⌊x⌋ : ℚ) + 1 := Int.lt_floor_add_one x
  unfold roundHalfEven
  split_ifs with h1 h2 h3
  · rw [abs_of_nonneg (by linarith)]
    linarith
  · rw [abs_of_nonpos (by push_cast; linarith)]
    push_cast
    linarith
  · rw [abs_of_nonneg (by linarith)]
    linarith
  · rw [abs_of_nonpos (by push_cast; linarith)]
    push_cast
    linarith

/-- At an exact half, roundHalfEven picks the even neighbor. -/
lemma roundHalfEven_tie_even (x : ℚ) (h : x - (⌊x⌋ : ℚ) = 1 / 2) :
    roundHalfEven x % 2 = 0 := by
  unfold roundHalfEven
  rw [h, if_neg (lt_irrefl (1 / 2 : ℚ)), if_neg (lt_irrefl (1 / 2 : ℚ))]
  by_cases he : ⌊x⌋ % 2 = 0
  · rw [if_pos he]
    exact he
  · rw [if_neg he]
    omega

/-- When the argument lies in the interval from 0 to 5, so does the
rounded value. -/
lemma roundHalfEven_range (x : ℚ) (h0 : 0 ≤ x) (h5 : x ≤ 5) :
    0 ≤ roundHalfEven x ∧ roundHalfEven x ≤ 5 := by
  have hf0 : 0 ≤ ⌊x⌋ := Int.floor_nonneg.2 h0
  have hf5 : ⌊x⌋ ≤ 5 := by
    have := Int.floor_le_floor h5
    simpa using this
  have hfl : (⌊x⌋ : ℚ) ≤ x := Int.floor_le x
  unfold roundHalfEven
  split_ifs with h1 h2 h3
  · exact ⟨hf0, hf5⟩
  · refine ⟨by omega, ?_⟩
    rcases lt_or_eq_of_le hf5 with h | h
    · omega
    · exfalso
      rw [h] at hfl
      have : x - (⌊x⌋ : ℚ) ≤ 0 := by
        rw [h]
        push_cast
        linarith
      linarith
  · exact ⟨hf0, hf5⟩
  · refine ⟨by omega, ?_⟩
    rcases lt_or_eq_of_le hf5 with h | h
    · omega
    · exfalso
      have hd : x - (⌊x⌋ : ℚ) = 1 / 2 := le_antisymm (not_lt.1 h2) (not_lt.1 h1)
      rw [h] at hd
      push_cast at hd
      linarith

/-- A dataset whose ratings all equal 6: nothing in the code clamps the
rating column, so the whole pipeline carries the value 6 through. -/
def gEx9 : List GRow :=
  [{ isbn10 := some "1001", title := "U1", authors := some "W1",
     average_rating := 6, ratings_count := 8, num_pages := 100 },
   { isbn10 := some "1002", title := "U2", authors := some "W2",
     average_rating := 6, ratings_count := 8, num_pages := 150 },
   { isbn10 := some "1003", title := "U3", authors := some "W3",
     average_rating := 6, ratings_count := 8, num_pages := 200 },
   { isbn10 := some "1004", title := "U4", authors := some "W4",
     average_rating := 6, ratings_count := 8, num_pages := 250 },
   { isbn10 := some "1005", title := "U5", authors := some "W5",
     average_rating := 6, ratings_count := 8, num_pages := 300 }]

def cEx9 : List CRow :=
  [{ isbn10 := some "1001", categories := some "Humor",
     thumbnail := none, description := none },
   { isbn10 := some "1002", categories := some "Humor",
     thumbnail := none, description := none },
   { isbn10 := some "1003", categories := some "Humor",
     thumbnail := none, description := none },
   { isbn10 := some "1004", categories := some "Humor",
     thumbnail := none, description := none },
   { isbn10 := some "1005", categories := some "Humor",
     thumbnail := none, description := none }]

/-- The expected final frame for the rating-6 tables: C = 8, m = 6,
bayes_average 6, rounded_rating 6 everywhere. -/
def booksEx9 : List Book :=
  [bEx "1001" "U1" (some "W1") 6 8 100 6 6,
   bEx "1002" "U2" (some "W2") 6 8 150 6 6,
   bEx "1003" "U3" (some "W3") 6 8 200 6 6,
   bEx "1004" "U4" (some "W4") 6 8 250 6 6,
   bEx "1005" "U5" (some "W5") 6 8 300 6 6]

/-- The rating-6 pipeline fully evaluated. -/
lemma all_books_gEx9 : all_books gEx9 cEx9 = booksEx9 := by
  simp [all_books, filteredBooks, mergeBooks, mkBook, normalizeBooks,
    normGenre, similar_genre, addFrequency, genreFreq, filterFrequent,
    addBayes, addRounded, C_of, m_of, quantile25, colMean, sortAsc,
    insertAsc, roundHalfEven, gEx9, cEx9, booksEx9, bEx, List.flatMap,
    List.filter, List.map, List.countP, List.countP.go, List.lookup]
  norm_num [insertAsc, roundHalfEven]
  try simp
  try norm_num

/-- Counterexample to C9 as stated: on the rating-6 tables, a record of
the final dataset has rounded_rating 6, outside the claimed range 0..5
(the code never clamps average_rating). -/
theorem C9_range_counterexample :
    ¬ (∀ b ∈ all_books gEx9 cEx9,
        0 ≤ b.rounded_rating ∧ b.rounded_rating ≤ 5) := by
  intro hall
  have hmem : (bEx "1001" "U1" (some "W1") 6 8 100 6 6) ∈ all_books gEx9 cEx9 := by
    rw [all_books_gEx9]
    simp [booksEx9]
  have h := (hall _ hmem).2
  exact absurd h (by decide)

/-- Claim C9, amended: every record's rounded_rating is average_rating
rounded to the nearest integer under the half-to-even policy (numpy
rounding), and it lies in 0..5 whenever average_rating lies in the
interval from 0 to 5. -/
theorem C9_rounded_rating (g : List GRow) (c : List CRow) (b : Book)
    (hb : b ∈ all_books g c) :
    b.rounded_rating = roundHalfEven b.average_rating ∧
      |b.average_rating - (b.rounded_rating : ℚ)| ≤ 1 / 2 ∧
      (b.average_rating - (⌊b.average_rating⌋ : ℚ) = 1 / 2 →
        b.rounded_rating % 2 = 0) ∧
      (0 ≤ b.average_rating → b.average_rating ≤ 5 →
        0 ≤ b.rounded_rating ∧ b.rounded_rating ≤ 5) := by
  obtain ⟨b0, _, _, _, _, _, _, _, _, _, hround⟩ := all_books_shape g c b hb
  refine ⟨hround, ?_, ?_, ?_⟩
  · rw [hround]
    exact roundHalfEven_nearest b.average_rating
  · intro h
    rw [hround]
    exact roundHalfEven_tie_even b.average_rating h
  · intro h0 h5
    rw [hround]
    exact roundHalfEven_range b.average_rating h0 h5

/-- Witness for the amended C9 at the record of isbn 0001: its rating 4
rounds to 4, within one half, inside the range 0..5. -/
theorem C9_rounded_rating_witness :
    b1Ex ∈ all_books gEx cEx ∧
      b1Ex.rounded_rating = roundHalfEven b1Ex.average_rating ∧
      |b1Ex.average_rating - (b1Ex.rounded_rating : ℚ)| ≤ 1 / 2 ∧
      0 ≤ b1Ex.average_rating ∧ b1Ex.average_rating ≤ 5 ∧
      0 ≤ b1Ex.rounded_rating ∧ b1Ex.rounded_rating ≤ 5 :=
  have hmem : b1Ex ∈ all_books gEx cEx := by
    rw [all_books_gEx]
    simp [booksEx]
  have h0 : (0 : ℚ) ≤ b1Ex.average_rating := by norm_num [b1Ex, bEx]
  have h5 : b1Ex.average_rating ≤ 5 := by norm_num [b1Ex, bEx]
  have h := C9_rounded_rating gEx cEx b1Ex hmem
  ⟨hmem, h.1, h.2.1, h0, h5, (h.2.2.2 h0 h5).1, (h.2.2.2 h0 h5).2⟩
